import Mathlib

/-!
Verification development for the `svelte-api-proxy` repository.

The repository's core is the `DevProxy` class in `src/index.js`: an HTTPS
development reverse proxy that validates a configuration object, loads SSL
certificates from disk, and routes each inbound HTTP request or WebSocket
upgrade either to a local app server or to an API target depending on
whether the request path starts with `/api/`.

This file shallowly embeds the pure decision logic of that class:
configuration validation (`validateConfig`), certificate path resolution
and existence checking (`loadSSLCertificates`), request routing
(`routeRequest` and the upgrade handler), the API proxy's request- and
response-header transforms (`proxyReq` / `proxyRes` hooks), the two
error handlers (`setupAPIProxyHandlers` / `setupAppProxyHandlers`), and
the `start` / `stop` lifecycle.  Node-specific effects (streams, sockets,
logging) are modelled as explicit data: header maps are association lists
with Node's case-insensitive `setHeader` semantics, the filesystem is a
function from paths to existence/content, and log output is a list of
(level, message) pairs.
-/

namespace DevProxy

/-- JavaScript values as far as the config validation logic observes them:
`validateConfig` in `src/index.js` tests each required field with JS
truthiness (`!config[key]`) and applies the nullish-coalescing operator
(`??`) for defaults, so we model the value lattice those operators see.
Numbers are modelled as integers (floating-point NaN is not needed by any
claim). -/
inductive JValue where
  | undefined : JValue
  | null : JValue
  | bool : Bool → JValue
  | num : Int → JValue
  | str : String → JValue
deriving DecidableEq, Repr

/-- JS truthiness: `undefined`, `null`, `false`, `0` and `""` are falsy;
everything else this model represents is truthy. -/
def JValue.truthy : JValue → Bool
  | .undefined => false
  | .null => false
  | .bool b => b
  | .num n => n != 0
  | .str s => s != ""

/-- JS nullish test: exactly `undefined` and `null` are nullish. -/
def JValue.nullish : JValue → Bool
  | .undefined => true
  | .null => true
  | _ => false

/-- JS nullish-coalescing `v ?? d`. -/
def coalesce (v d : JValue) : JValue :=
  if v.nullish then d else v

/-- The raw configuration object handed to the `DevProxy` constructor.
An absent property reads as `undefined` in JS, so absence is modelled by
the field holding `JValue.undefined`. -/
structure ConfigInput where
  appPort : JValue
  proxyPort : JValue
  devDomain : JValue
  apiLocal : JValue
  apiBaseUrl : JValue
  certsPath : JValue
  showLogs : JValue
deriving DecidableEq, Repr

/-- The normalized configuration returned by `validateConfig`
(src/index.js lines 44-52). -/
structure ValidatedConfig where
  appPort : JValue
  proxyPort : JValue
  devDomain : JValue
  apiLocal : JValue
  apiBaseUrl : JValue
  certsPath : JValue
  showLogs : JValue
deriving DecidableEq, Repr

/-- Embedding of `DevProxy.validateConfig` (src/index.js lines 29-53): the
five required keys are tested for truthiness in the fixed order
`appPort`, `proxyPort`, `devDomain`, `apiBaseUrl`, `certsPath`; the first
falsy one aborts with the error message `<key> is required`.  On success
the normalized object keeps the given values, with
`apiLocal := config.apiLocal ?? false` and
`showLogs := config.showLogs ?? true`. -/
def validateConfig (c : ConfigInput) : Except String ValidatedConfig :=
  if !c.appPort.truthy then .error "appPort is required"
  else if !c.proxyPort.truthy then .error "proxyPort is required"
  else if !c.devDomain.truthy then .error "devDomain is required"
  else if !c.apiBaseUrl.truthy then .error "apiBaseUrl is required"
  else if !c.certsPath.truthy then .error "certsPath is required"
  else .ok
    { appPort := c.appPort
      proxyPort := c.proxyPort
      devDomain := c.devDomain
      apiLocal := coalesce c.apiLocal (.bool false)
      apiBaseUrl := c.apiBaseUrl
      certsPath := c.certsPath
      showLogs := coalesce c.showLogs (.bool true) }

/-- The fields of a freshly constructed `DevProxy` object
(src/index.js lines 19-24): the validated config plus three `null` slots;
in particular no server/listener exists yet.  The proxies and the server
are identified by numeric ids in this model. -/
structure DevProxyObj where
  config : ValidatedConfig
  appProxy : Option Nat
  apiProxy : Option Nat
  server : Option Nat
deriving DecidableEq, Repr

/-- Embedding of the `DevProxy` constructor (src/index.js lines 19-24):
runs `validateConfig` (throwing its error, if any) and initializes
`appProxy`, `apiProxy` and `server` to `null` — no listener is opened
during construction. -/
def mkDevProxy (c : ConfigInput) : Except String DevProxyObj :=
  match validateConfig c with
  | .error e => .error e
  | .ok cfg => .ok { config := cfg, appProxy := none, apiProxy := none, server := none }

/-- Header maps as association lists of (name, value).  Node's
`res.setHeader` / `proxyReq.setHeader` store headers case-insensitively,
replacing any previous value for the same (case-folded) name. -/
abbrev Headers := List (String × String)

/-- The case folding JS `toLowerCase()` applies to the header names this
code handles: per-character lowercasing of the string's characters. -/
def lowerName (s : String) : String := ⟨s.data.map Char.toLower⟩

/-- Node `setHeader` semantics: drop every existing entry whose name
case-insensitively equals `k`, then record `(k, v)`. -/
def setHeader (hs : Headers) (k v : String) : Headers :=
  hs.filter (fun p => lowerName p.1 != lowerName k) ++ [(k, v)]

/-- Node `getHeader` semantics: look up a header case-insensitively. -/
def getHeader (hs : Headers) (k : String) : Option String :=
  (List.find? (fun p => lowerName p.1 == lowerName k) hs).map (fun p => p.2)

/-- JS `String.prototype.startsWith(pre)`: the characters of `pre` occur
at position 0 of `s`, modelled structurally over the character lists so
that concrete instances evaluate. -/
def jsStartsWith (s pre : String) : Bool := pre.data.isPrefixOf s.data

/-- Which upstream a request is routed to. -/
inductive Role where
  | api : Role
  | app : Role
deriving DecidableEq, Repr

/-- Result of `routeRequest`: the response headers set so far, the chosen
upstream role, and the path handed to that role's proxy. -/
structure RouteResult where
  resHeaders : Headers
  target : Role
  forwardedPath : String
deriving DecidableEq, Repr

/-- Embedding of `DevProxy.routeRequest` (src/index.js lines 203-211):
first sets `Cache-Control: no-cache, no-store, must-revalidate` on the
response unconditionally, then dispatches to `apiProxy.web` when
`req.url.startsWith("/api/")` and to `appProxy.web` otherwise, passing
`req` (and hence `req.url`) through unmodified. -/
def routeRequest (url : String) (resHeaders : Headers) : RouteResult :=
  let hs := setHeader resHeaders "Cache-Control" "no-cache, no-store, must-revalidate"
  if jsStartsWith url "/api/" then
    { resHeaders := hs, target := .api, forwardedPath := url }
  else
    { resHeaders := hs, target := .app, forwardedPath := url }

/-- Embedding of the WebSocket upgrade handler registered in `start`
(src/index.js lines 240-246): dispatches to `apiProxy.ws` when
`req.url.startsWith("/api/")` and to `appProxy.ws` otherwise, passing the
request through unmodified. -/
def routeUpgrade (url : String) : Role × String :=
  if jsStartsWith url "/api/" then (.api, url) else (.app, url)

/-- Modelled from the spec: the outbound request headers prepared by the
upstream client (the `http-proxy` library, outside this repository) before
the `proxyReq` hook of src/index.js runs.  Because both proxies are
created with `changeOrigin: true`, the library sets the outbound `Host`
header to the target's host. -/
def changeOriginHeaders (targetHost : String) : Headers :=
  [("host", targetHost)]

/-- First half of the `proxyReq` hook installed by
`DevProxy.setupAPIProxyHandlers` (src/index.js lines 108-119): for every
inbound header whose name does not case-insensitively equal `host`, copy
it onto the outbound request with `proxyReq.setHeader`.  `outbound` is
the outbound request's header state when the hook runs (see
`changeOriginHeaders`). -/
def copyNonHostHeaders (reqHeaders outbound : Headers) : Headers :=
  reqHeaders.foldl
    (fun acc p => if lowerName p.1 != "host" then setHeader acc p.1 p.2 else acc)
    outbound

/-- Second half of the same `proxyReq` hook: after the copy loop, when
`apiLocal` is false, set `x-app-environment: local`
(src/index.js lines 126-128). -/
def apiProxyReqHeaders (apiLocal : Bool) (reqHeaders outbound : Headers) : Headers :=
  let copied := copyNonHostHeaders reqHeaders outbound
  if !apiLocal then setHeader copied "x-app-environment" "local" else copied

/-- Embedding of the header-copying part of the `proxyRes` hook installed
by `DevProxy.setupAPIProxyHandlers` (src/index.js lines 137-147): every
upstream response header is copied onto the outbound response with
`res.setHeader`, overwriting any same-named header already set. -/
def apiProxyResHeaders (resHeaders upstreamHeaders : Headers) : Headers :=
  upstreamHeaders.foldl (fun acc p => setHeader acc p.1 p.2) resHeaders

/-- Logging levels of the console calls the error handlers perform. -/
inductive LogLevel where
  | error : LogLevel
  | warn : LogLevel
  | info : LogLevel
deriving DecidableEq, Repr

/-- What an error handler does with the original caller. -/
inductive ErrOutcome where
  | respond (status : Nat) (contentType : String) (body : String) : ErrOutcome
  | destroySocket : ErrOutcome
  | abandon : ErrOutcome
deriving DecidableEq, Repr

/-- Embedding of the `error` handler installed by
`DevProxy.setupAPIProxyHandlers` (src/index.js lines 149-155): logs the
error with `console.error`; if `res` is present and headers are not yet
sent, responds `502` with `Content-Type: text/plain` and body
`API proxy error`; otherwise does nothing further (the connection is
abandoned).  Returns the outcome and the log lines emitted. -/
def apiProxyError (hasRes headersSent : Bool) : ErrOutcome × List (LogLevel × String) :=
  let logs := [(LogLevel.error, "[PROXY] API proxy error:")]
  if hasRes && !headersSent then
    (.respond 502 "text/plain" "API proxy error", logs)
  else
    (.abandon, logs)

/-- Embedding of the `error` handler installed by
`DevProxy.setupAppProxyHandlers` (src/index.js lines 161-183): always
logs the error with `console.error` first; when `err.code` is
`ECONNREFUSED` it additionally logs a warning with `console.warn` and
destroys `resOrSocket` (when it has a `destroy` method), returning early;
otherwise, when `resOrSocket` is present and headers are not yet sent, it
responds `500` with `Content-Type: text/plain` and body `App proxy error`
if `resOrSocket` has a `writeHead` method (an HTTP response), and destroys
the socket if not (a WebSocket upgrade). -/
def appProxyError (code : String) (hasResOrSocket headersSent isHttp canDestroy : Bool) :
    ErrOutcome × List (LogLevel × String) :=
  let errLog := (LogLevel.error, "[PROXY] App proxy error:")
  if code = "ECONNREFUSED" then
    ((if canDestroy then .destroySocket else .abandon),
      [errLog, (LogLevel.warn, "[PROXY] App not ready yet, ignoring...")])
  else if hasResOrSocket && !headersSent then
    ((if isHttp then .respond 500 "text/plain" "App proxy error" else .destroySocket),
      [errLog])
  else
    (.abandon, [errLog])

/-- Minimal filesystem: which paths exist, and the content read at a
path. -/
structure FileSys where
  pathExists : String → Bool
  readFile : String → String

/-- One filesystem access performed by certificate loading, in order. -/
inductive CertAccess where
  | existsCheck (p : String) : CertAccess
  | fileRead (p : String) : CertAccess
deriving DecidableEq, Repr

/-- Literal embedding of `path.join(a, b)` for the two calls in
`loadSSLCertificates`, where `a` is the configured `certsPath` and `b` a
plain file name: a slash-separated concatenation (no normalization is
relevant for these arguments). -/
def pathJoin (a b : String) : String := a ++ "/" ++ b

/-- Embedding of `DevProxy.loadSSLCertificates` (src/index.js lines 58-80):
computes `keyPath = {certsPath}/{devDomain}-key.pem` and
`certPath = {certsPath}/{devDomain}.pem`; if the key file does not exist,
throws `SSL key not found at: {keyPath}`; else if the certificate file
does not exist, throws `SSL certificate not found at: {certPath}`; else
reads and returns both files.  The second component records every
filesystem access in the order performed. -/
def loadSSLCertificates (fs : FileSys) (certsPath devDomain : String) :
    Except String (String × String) × List CertAccess :=
  let keyPath := pathJoin certsPath (devDomain ++ "-key.pem")
  let certPath := pathJoin certsPath (devDomain ++ ".pem")
  if !fs.pathExists keyPath then
    (.error ("SSL key not found at: " ++ keyPath), [.existsCheck keyPath])
  else if !fs.pathExists certPath then
    (.error ("SSL certificate not found at: " ++ certPath),
      [.existsCheck keyPath, .existsCheck certPath])
  else
    (.ok (fs.readFile keyPath, fs.readFile certPath),
      [.existsCheck keyPath, .existsCheck certPath, .fileRead keyPath, .fileRead certPath])

/-- Observable effects of one `start()` call (src/index.js lines 216-255):
whether certificates were (re)loaded, whether fresh proxy instances and a
fresh `https.createServer` were made, and whether `server.listen` was
invoked. -/
structure StartEffects where
  certsLoaded : Bool
  newProxiesCreated : Bool
  newServerCreated : Bool
  listenCalled : Bool
deriving DecidableEq, Repr

/-- Mutable lifecycle state of a constructed `DevProxy`: the `server`
field (id of the current `https` server object, `null` before the first
`start`), and whether that server's listener is open. -/
structure LifecycleState where
  server : Option Nat
  listening : Bool
deriving DecidableEq, Repr

/-- Embedding of `DevProxy.start` (src/index.js lines 216-255), assuming
the certificates load successfully.  The body is unconditional: it never
inspects `this.server`, so every call loads certificates, creates new
proxies, creates a new `https` server (overwriting `this.server`), and
calls `listen` on the configured port — even when a previous `start`
already opened a listener.  `freshId` identifies the newly created server
object. -/
def startStep (s : LifecycleState) (freshId : Nat) : LifecycleState × StartEffects :=
  let _ := s.server
  ({ server := some freshId, listening := true },
    { certsLoaded := true, newProxiesCreated := true,
      newServerCreated := true, listenCalled := true })

/-- Embedding of `DevProxy.stop` (src/index.js lines 260-265): when
`this.server` is non-null, calls `server.close()` (which closes the
listener when it is open and otherwise reports `ERR_SERVER_NOT_RUNNING`
to an absent callback — no exception either way) and logs; when
`this.server` is null, does nothing.  The Bool records whether `close`
was invoked; no branch throws. -/
def stopStep (s : LifecycleState) : LifecycleState × Bool :=
  match s.server with
  | some i => ({ server := some i, listening := false }, true)
  | none => (s, false)


/-- A fully populated, truthy configuration used as the base input of the
concrete validation scenarios. -/
def sampleConfig : ConfigInput :=
  { appPort := JValue.num 3000
    proxyPort := JValue.num 8443
    devDomain := JValue.str "dev.example.com"
    apiLocal := JValue.undefined
    apiBaseUrl := JValue.str "https://api.example.com"
    certsPath := JValue.str "/certs"
    showLogs := JValue.undefined }

/-- The normalized configuration `validateConfig` produces from
`sampleConfig`: same values with the two defaults filled in. -/
def sampleValidated : ValidatedConfig :=
  { appPort := JValue.num 3000
    proxyPort := JValue.num 8443
    devDomain := JValue.str "dev.example.com"
    apiLocal := JValue.bool false
    apiBaseUrl := JValue.str "https://api.example.com"
    certsPath := JValue.str "/certs"
    showLogs := JValue.bool true }

/-! Helper lemmas about the Node header-map semantics. -/

lemma find?_filter_of_imp (l : Headers) (pred q : (String × String) → Bool)
    (h : ∀ x, pred x = true → q x = true) :
    (l.filter q).find? pred = l.find? pred := by
  induction l with
  | nil => rfl
  | cons x t ih =>
      by_cases hq : q x = true
      · by_cases hp : pred x = true
        · simp [List.filter_cons, hq, List.find?, hp]
        · simp [List.filter_cons, hq, List.find?, hp, ih]
      · have hp : pred x = false := by
          cases hpx : pred x with
          | false => rfl
          | true => exact absurd (h x hpx) hq
        simp [List.filter_cons, hq, List.find?, hp, ih]

lemma getHeader_setHeader (hs : Headers) (k v k' : String) :
    getHeader (setHeader hs k v) k' =
      if lowerName k' = lowerName k then some v else getHeader hs k' := by
  unfold getHeader setHeader
  rw [List.find?_append]
  by_cases h : lowerName k' = lowerName k
  · have h1 : (hs.filter fun p => lowerName p.1 != lowerName k).find?
        (fun p => lowerName p.1 == lowerName k') = none := by
      apply List.find?_eq_none.mpr
      intro x hx
      have hx' : (lowerName x.1 != lowerName k) = true := (List.mem_filter.mp hx).2
      simp only [bne_iff_ne, ne_eq] at hx'
      simp only [beq_iff_eq, h]
      exact hx'
    rw [h1]
    simp [List.find?, beq_iff_eq, h]
  · have hkk : (lowerName k == lowerName k') = false := by
      simp only [beq_eq_false_iff_ne, ne_eq]
      exact fun hc => h hc.symm
    have h2 : List.find? (fun p => lowerName p.1 == lowerName k') [(k, v)] = none := by
      simp [List.find?, hkk]
    rw [h2, Option.or_none]
    rw [find?_filter_of_imp]
    · simp [h]
    · intro x hx
      simp only [beq_iff_eq] at hx
      simp only [bne_iff_ne, ne_eq, hx]
      exact fun hc => h hc

lemma getHeader_setHeader_self (hs : Headers) (k v : String) :
    getHeader (setHeader hs k v) k = some v := by
  rw [getHeader_setHeader]; simp

lemma getHeader_setHeader_ne (hs : Headers) (k v k' : String)
    (h : lowerName k' ≠ lowerName k) :
    getHeader (setHeader hs k v) k' = getHeader hs k' := by
  rw [getHeader_setHeader]; simp [h]

lemma copyNonHostHeaders_cons (p : String × String) (t : Headers) (outbound : Headers) :
    copyNonHostHeaders (p :: t) outbound =
      copyNonHostHeaders t
        (if lowerName p.1 != "host" then setHeader outbound p.1 p.2 else outbound) := rfl

lemma copyNonHostHeaders_preserve (t : Headers) (outbound : Headers) (name : String)
    (h : ∀ r ∈ t, lowerName r.1 ≠ lowerName name) :
    getHeader (copyNonHostHeaders t outbound) name = getHeader outbound name := by
  induction t generalizing outbound with
  | nil => rfl
  | cons r t ih =>
      rw [copyNonHostHeaders_cons]
      rw [ih _ (fun x hx => h x (List.mem_cons.mpr (Or.inr hx)))]
      by_cases hr : (lowerName r.1 != "host") = true
      · rw [if_pos hr]
        exact getHeader_setHeader_ne _ _ _ _
          (fun hc => (h r (List.mem_cons_self r t)) hc.symm)
      · rw [if_neg hr]

lemma copyNonHostHeaders_host (t : Headers) (outbound : Headers) :
    getHeader (copyNonHostHeaders t outbound) "host" = getHeader outbound "host" := by
  induction t generalizing outbound with
  | nil => rfl
  | cons r t ih =>
      rw [copyNonHostHeaders_cons]
      by_cases hr : lowerName r.1 = "host"
      · have hng : ¬ ((lowerName r.1 != "host") = true) := by simp [hr]
        rw [if_neg hng]
        exact ih outbound
      · have hbne : (lowerName r.1 != "host") = true := by simp [bne_iff_ne, hr]
        rw [if_pos hbne, ih]
        refine getHeader_setHeader_ne _ _ _ _ ?hne
        intro hc
        apply hr
        have hhost : lowerName "host" = "host" := rfl
        rw [hhost] at hc
        exact hc.symm

lemma copyNonHostHeaders_copied (t : Headers) (p : String × String)
    (hhost : lowerName p.1 ≠ "host") :
    ∀ outbound : Headers, p ∈ t → (t.map (fun q => lowerName q.1)).Nodup →
      getHeader (copyNonHostHeaders t outbound) p.1 = some p.2 := by
  induction t with
  | nil =>
      intro _ hmem _
      cases hmem
  | cons r t ih =>
      intro outbound hmem hnodup
      simp only [List.map_cons, List.nodup_cons] at hnodup
      rw [copyNonHostHeaders_cons]
      rcases List.mem_cons.mp hmem with heq | hmem'
      · subst heq
        have hnd : ∀ x ∈ t, lowerName x.1 ≠ lowerName p.1 := by
          intro x hx hc
          exact hnodup.1 (List.mem_map.mpr ⟨x, hx, hc⟩)
        rw [copyNonHostHeaders_preserve t _ p.1 hnd]
        have hbne : (lowerName p.1 != "host") = true := by simp [bne_iff_ne, hhost]
        rw [if_pos hbne]
        exact getHeader_setHeader_self _ _ _
      · exact ih _ hmem' hnodup.2

lemma apiProxyResHeaders_cons (hs : Headers) (p : String × String) (t : Headers) :
    apiProxyResHeaders hs (p :: t) = apiProxyResHeaders (setHeader hs p.1 p.2) t := rfl

lemma apiProxyResHeaders_preserve (upstream : Headers) (resHeaders : Headers) (name : String)
    (h : ∀ r ∈ upstream, lowerName r.1 ≠ lowerName name) :
    getHeader (apiProxyResHeaders resHeaders upstream) name = getHeader resHeaders name := by
  induction upstream generalizing resHeaders with
  | nil => rfl
  | cons r t ih =>
      rw [apiProxyResHeaders_cons]
      rw [ih _ (fun x hx => h x (List.mem_cons.mpr (Or.inr hx)))]
      exact getHeader_setHeader_ne _ _ _ _
        (fun hc => (h r (List.mem_cons_self r t)) hc.symm)


/-! Claim theorems. -/

/-- C1: For every inbound HTTP request and every WebSocket upgrade request,
the proxy resolves role `Api` exactly when the request path starts with the
literal `/api/` and role `App` otherwise, and forwards the request to that
role's target with the path unchanged. -/
theorem c1_routing_classifies_by_api_path (url : String) (resHeaders : Headers) :
    ((routeRequest url resHeaders).target = Role.api ↔ jsStartsWith url "/api/" = true)
    ∧ ((routeRequest url resHeaders).target = Role.app ↔ jsStartsWith url "/api/" = false)
    ∧ (routeRequest url resHeaders).forwardedPath = url
    ∧ ((routeUpgrade url).1 = Role.api ↔ jsStartsWith url "/api/" = true)
    ∧ ((routeUpgrade url).1 = Role.app ↔ jsStartsWith url "/api/" = false)
    ∧ (routeUpgrade url).2 = url := by
  unfold routeRequest routeUpgrade
  cases h : jsStartsWith url "/api/" <;> simp [h]

/-- C8: For every configuration object missing any of the five required
fields (`appPort`, `proxyPort`, `devDomain`, `apiBaseUrl`, `certsPath`),
construction fails, before any listener opens, with an error naming the
missing field; a constructed configuration has `apiLocal` defaulting to
false and `showLogs` defaulting to true. -/
theorem c8_required_fields_and_defaults (c : ConfigInput) :
    (c.appPort = JValue.undefined → mkDevProxy c = .error "appPort is required")
    ∧ (c.appPort.truthy = true → c.proxyPort = JValue.undefined →
        mkDevProxy c = .error "proxyPort is required")
    ∧ (c.appPort.truthy = true → c.proxyPort.truthy = true →
        c.devDomain = JValue.undefined →
        mkDevProxy c = .error "devDomain is required")
    ∧ (c.appPort.truthy = true → c.proxyPort.truthy = true →
        c.devDomain.truthy = true → c.apiBaseUrl = JValue.undefined →
        mkDevProxy c = .error "apiBaseUrl is required")
    ∧ (c.appPort.truthy = true → c.proxyPort.truthy = true →
        c.devDomain.truthy = true → c.apiBaseUrl.truthy = true →
        c.certsPath = JValue.undefined →
        mkDevProxy c = .error "certsPath is required")
    ∧ (c.appPort.truthy = true → c.proxyPort.truthy = true →
        c.devDomain.truthy = true → c.apiBaseUrl.truthy = true →
        c.certsPath.truthy = true →
        c.apiLocal = JValue.undefined → c.showLogs = JValue.undefined →
        ∃ obj : DevProxyObj, mkDevProxy c = .ok obj ∧ obj.server = none
          ∧ obj.config.apiLocal = JValue.bool false
          ∧ obj.config.showLogs = JValue.bool true) := by
  refine ⟨?_, ?_, ?_, ?_, ?_, ?_⟩
  · intro h1
    have h1' : c.appPort.truthy = false := by rw [h1]; rfl
    unfold mkDevProxy validateConfig
    simp [h1']
  · intro h1 h2
    have h2' : c.proxyPort.truthy = false := by rw [h2]; rfl
    unfold mkDevProxy validateConfig
    simp [h1, h2']
  · intro h1 h2 h3
    have h3' : c.devDomain.truthy = false := by rw [h3]; rfl
    unfold mkDevProxy validateConfig
    simp [h1, h2, h3']
  · intro h1 h2 h3 h4
    have h4' : c.apiBaseUrl.truthy = false := by rw [h4]; rfl
    unfold mkDevProxy validateConfig
    simp [h1, h2, h3, h4']
  · intro h1 h2 h3 h4 h5
    have h5' : c.certsPath.truthy = false := by rw [h5]; rfl
    unfold mkDevProxy validateConfig
    simp [h1, h2, h3, h4, h5']
  · intro h1 h2 h3 h4 h5 h6 h7
    refine ⟨{ config := { appPort := c.appPort
                          proxyPort := c.proxyPort
                          devDomain := c.devDomain
                          apiLocal := coalesce c.apiLocal (JValue.bool false)
                          apiBaseUrl := c.apiBaseUrl
                          certsPath := c.certsPath
                          showLogs := coalesce c.showLogs (JValue.bool true) }
              appProxy := none
              apiProxy := none
              server := none }, ?_, rfl, ?_, ?_⟩
    · unfold mkDevProxy validateConfig
      simp [h1, h2, h3, h4, h5]
    · simp [h6, coalesce, JValue.nullish]
    · simp [h7, coalesce, JValue.nullish]

/-- Concrete instantiations of the hypotheses of
`c8_required_fields_and_defaults`. -/
theorem c8_required_fields_and_defaults_witness :
    mkDevProxy { sampleConfig with appPort := JValue.undefined }
      = .error "appPort is required"
    ∧ mkDevProxy { sampleConfig with apiBaseUrl := JValue.undefined }
      = .error "apiBaseUrl is required"
    ∧ (∃ obj : DevProxyObj, mkDevProxy sampleConfig = .ok obj ∧ obj.server = none
        ∧ obj.config.apiLocal = JValue.bool false
        ∧ obj.config.showLogs = JValue.bool true) :=
  ⟨(c8_required_fields_and_defaults _).1 rfl,
   (c8_required_fields_and_defaults _).2.2.2.1 (by decide) (by decide) (by decide) rfl,
   (c8_required_fields_and_defaults _).2.2.2.2.2 (by decide) (by decide) (by decide)
     (by decide) (by decide) rfl rfl⟩

/-- C10: Required-field validation tests only truthiness, in the fixed
order `appPort`, `proxyPort`, `devDomain`, `apiBaseUrl`, `certsPath`: a
field present but equal to 0, false, or the empty string is rejected with
the same `<field> is required` error as an absent field, and no type or
positivity check is performed (a negative or non-numeric `appPort` passes
validation). -/
theorem c10_truthiness_only_validation :
    (∀ c : ConfigInput,
      (c.appPort = JValue.num 0 ∨ c.appPort = JValue.bool false ∨
       c.appPort = JValue.str "" ∨ c.appPort = JValue.undefined) →
      validateConfig c = .error "appPort is required")
    ∧ validateConfig { sampleConfig with appPort := JValue.num (-7) }
        = .ok { sampleValidated with appPort := JValue.num (-7) }
    ∧ validateConfig { sampleConfig with appPort := JValue.str "not-a-number" }
        = .ok { sampleValidated with appPort := JValue.str "not-a-number" }
    ∧ validateConfig { appPort := JValue.undefined, proxyPort := JValue.num 0, devDomain := JValue.str "", apiLocal := JValue.undefined, apiBaseUrl := JValue.bool false, certsPath := JValue.undefined, showLogs := JValue.undefined }
        = .error "appPort is required"
    ∧ validateConfig { appPort := JValue.num 3000, proxyPort := JValue.num 0, devDomain := JValue.str "", apiLocal := JValue.undefined, apiBaseUrl := JValue.bool false, certsPath := JValue.undefined, showLogs := JValue.undefined }
        = .error "proxyPort is required"
    ∧ validateConfig { sampleConfig with devDomain := JValue.str "" }
        = .error "devDomain is required"
    ∧ validateConfig { sampleConfig with apiBaseUrl := JValue.bool false }
        = .error "apiBaseUrl is required"
    ∧ validateConfig { sampleConfig with certsPath := JValue.num 0 }
        = .error "certsPath is required" := by
  refine ⟨?_, rfl, rfl, rfl, rfl, rfl, rfl, rfl⟩
  intro c h
  have h' : c.appPort.truthy = false := by
    rcases h with h | h | h | h <;> rw [h] <;> rfl
  unfold validateConfig
  simp [h']

/-- Concrete instantiation of the hypothesis of
`c10_truthiness_only_validation`. -/
theorem c10_truthiness_only_validation_witness :
    validateConfig { sampleConfig with appPort := JValue.num 0 }
      = .error "appPort is required" :=
  c10_truthiness_only_validation.1 _ (Or.inl rfl)


/-- C2: For every request forwarded to the Api target, every inbound
header is copied to the outbound request except `Host` (matched
case-insensitively), so the forwarded request's `Host` is the
change-origin target host, never the original inbound `Host` (which
differs from the target host whenever the proxy's domain and the API
host differ). -/
theorem c2_host_header_not_copied (apiLocal : Bool) (reqHeaders : Headers)
    (targetHost : String) :
    getHeader (apiProxyReqHeaders apiLocal reqHeaders (changeOriginHeaders targetHost)) "host"
      = some targetHost
    ∧ (∀ p ∈ reqHeaders, lowerName p.1 ≠ "host" → lowerName p.1 ≠ "x-app-environment" →
        (reqHeaders.map (fun q => lowerName q.1)).Nodup →
        getHeader (apiProxyReqHeaders apiLocal reqHeaders (changeOriginHeaders targetHost)) p.1
          = some p.2)
    ∧ (∀ inboundHost, getHeader reqHeaders "host" = some inboundHost →
        inboundHost ≠ targetHost →
        getHeader (apiProxyReqHeaders apiLocal reqHeaders (changeOriginHeaders targetHost)) "host"
          ≠ some inboundHost) := by
  have hbase : getHeader (changeOriginHeaders targetHost) "host" = some targetHost := rfl
  have hhost : getHeader
      (apiProxyReqHeaders apiLocal reqHeaders (changeOriginHeaders targetHost)) "host"
      = some targetHost := by
    cases apiLocal with
    | false =>
        show getHeader (setHeader (copyNonHostHeaders reqHeaders (changeOriginHeaders targetHost))
          "x-app-environment" "local") "host" = some targetHost
        rw [getHeader_setHeader_ne _ _ _ _ (by decide)]
        rw [copyNonHostHeaders_host]
        exact hbase
    | true =>
        show getHeader (copyNonHostHeaders reqHeaders (changeOriginHeaders targetHost)) "host"
          = some targetHost
        rw [copyNonHostHeaders_host]
        exact hbase
  refine ⟨hhost, ?_, ?_⟩
  · intro p hmem hph hpe hnodup
    have hcopied := copyNonHostHeaders_copied reqHeaders p hph
      (changeOriginHeaders targetHost) hmem hnodup
    cases apiLocal with
    | false =>
        show getHeader (setHeader (copyNonHostHeaders reqHeaders (changeOriginHeaders targetHost))
          "x-app-environment" "local") p.1 = some p.2
        rw [getHeader_setHeader_ne]
        · exact hcopied
        · have henv : lowerName "x-app-environment" = "x-app-environment" := rfl
          rw [henv]
          exact hpe
    | true =>
        show getHeader (copyNonHostHeaders reqHeaders (changeOriginHeaders targetHost)) p.1
          = some p.2
        exact hcopied
  · intro inboundHost _ hne hc
    rw [hhost] at hc
    exact hne (Option.some.inj hc).symm

/-- Concrete instantiation of `c2_host_header_not_copied`: with inbound
headers carrying `host: dev.example.com` and `accept: text/html`, the
forwarded request keeps `accept` and its `host` is the API target's, not
the inbound one. -/
theorem c2_host_header_not_copied_witness :
    getHeader (apiProxyReqHeaders false [("host", "dev.example.com"), ("accept", "text/html")]
      (changeOriginHeaders "api.example.com")) "accept" = some "text/html"
    ∧ getHeader (apiProxyReqHeaders false [("host", "dev.example.com"), ("accept", "text/html")]
      (changeOriginHeaders "api.example.com")) "host" ≠ some "dev.example.com" :=
  ⟨(c2_host_header_not_copied false [("host", "dev.example.com"), ("accept", "text/html")]
      "api.example.com").2.1 ("accept", "text/html") (by decide) (by decide) (by decide)
      (by decide),
   (c2_host_header_not_copied false [("host", "dev.example.com"), ("accept", "text/html")]
      "api.example.com").2.2 "dev.example.com" (by decide) (by decide)⟩

/-- C6: For every request forwarded to the Api target, when `apiLocal` is
false the forwarded request carries `x-app-environment: local`, and when
`apiLocal` is true that header is not added (so it is absent whenever
neither the inbound request nor the prepared outbound request carried
one). -/
theorem c6_environment_header_iff_not_local (reqHeaders outbound : Headers) :
    getHeader (apiProxyReqHeaders false reqHeaders outbound) "x-app-environment" = some "local"
    ∧ ((∀ p ∈ reqHeaders, lowerName p.1 ≠ "x-app-environment") →
        getHeader outbound "x-app-environment" = none →
        getHeader (apiProxyReqHeaders true reqHeaders outbound) "x-app-environment" = none) := by
  constructor
  · show getHeader (setHeader (copyNonHostHeaders reqHeaders outbound)
      "x-app-environment" "local") "x-app-environment" = some "local"
    exact getHeader_setHeader_self _ _ _
  · intro h1 h2
    show getHeader (copyNonHostHeaders reqHeaders outbound) "x-app-environment" = none
    have hp : ∀ r ∈ reqHeaders, lowerName r.1 ≠ lowerName "x-app-environment" := by
      intro r hr
      have henv : lowerName "x-app-environment" = "x-app-environment" := rfl
      rw [henv]
      exact h1 r hr
    rw [copyNonHostHeaders_preserve reqHeaders outbound "x-app-environment" hp]
    exact h2

/-- Concrete instantiation of `c6_environment_header_iff_not_local`: with
`apiLocal` true and no inbound or prepared `x-app-environment` header, the
forwarded request has none. -/
theorem c6_environment_header_iff_not_local_witness :
    getHeader (apiProxyReqHeaders true [("accept", "text/html")]
      (changeOriginHeaders "api.example.com")) "x-app-environment" = none :=
  (c6_environment_header_iff_not_local [("accept", "text/html")]
    (changeOriginHeaders "api.example.com")).2 (by decide) (by decide)

/-- C7 counterexample: the claim says every routed HTTP response carries
`Cache-Control: no-cache, no-store, must-revalidate`, but for the Api role
the `proxyRes` hook copies every upstream response header onto the
response afterwards, so an upstream `cache-control` overwrites the preset
value: routing `/api/users` and relaying an upstream response with
`cache-control: max-age=60` leaves the caller's response carrying
`max-age=60`. -/
theorem c7_counterexample :
    getHeader (apiProxyResHeaders (routeRequest "/api/users" []).resHeaders
      [("cache-control", "max-age=60")]) "Cache-Control" = some "max-age=60"
    ∧ (some "max-age=60" : Option String) ≠ some "no-cache, no-store, must-revalidate" := by
  constructor
  · rfl
  · decide

/-- C7 as amended: `Cache-Control: no-cache, no-store, must-revalidate` is
set unconditionally on every routed response before the routing decision,
and it is still the response's `Cache-Control` after the Api role's
upstream-header copy whenever the upstream response carries no
`cache-control` header of its own. -/
theorem c7_cache_control_preset (url : String) (resHeaders upstreamHeaders : Headers) :
    getHeader (routeRequest url resHeaders).resHeaders "Cache-Control"
      = some "no-cache, no-store, must-revalidate"
    ∧ ((∀ p ∈ upstreamHeaders, lowerName p.1 ≠ "cache-control") →
        getHeader (apiProxyResHeaders (routeRequest url resHeaders).resHeaders upstreamHeaders)
          "Cache-Control" = some "no-cache, no-store, must-revalidate") := by
  have hset : getHeader (routeRequest url resHeaders).resHeaders "Cache-Control"
      = some "no-cache, no-store, must-revalidate" := by
    unfold routeRequest
    cases h : jsStartsWith url "/api/" <;>
      · simp only [h, if_true, if_false, Bool.false_eq_true]
        exact getHeader_setHeader_self _ _ _
  refine ⟨hset, ?_⟩
  intro h
  have hp : ∀ r ∈ upstreamHeaders, lowerName r.1 ≠ lowerName "Cache-Control" := by
    intro r hr
    have hcc : lowerName "Cache-Control" = "cache-control" := rfl
    rw [hcc]
    exact h r hr
  rw [apiProxyResHeaders_preserve upstreamHeaders _ "Cache-Control" hp]
  exact hset

/-- Concrete instantiation of `c7_cache_control_preset`: an upstream
response with only `content-type` leaves the preset `Cache-Control`
intact. -/
theorem c7_cache_control_preset_witness :
    getHeader (apiProxyResHeaders (routeRequest "/api/users" []).resHeaders
      [("content-type", "application/json")]) "Cache-Control"
      = some "no-cache, no-store, must-revalidate" :=
  (c7_cache_control_preset "/api/users" [] [("content-type", "application/json")]).2 (by decide)


/-- C3 counterexample: the claim says a network-level error on either role
with no response yet sent yields status 502; but an App-role error other
than connection-refused (here ECONNRESET) with headers not sent makes the
handler respond with status 500 (`App proxy error`), not 502. -/
theorem c3_counterexample :
    (appProxyError "ECONNRESET" true false true true).1
      = ErrOutcome.respond 500 "text/plain" "App proxy error"
    ∧ (500 : Nat) ≠ 502 := by
  constructor
  · rfl
  · decide

/-- C3 as amended: on a network-level error with no response sent, the Api
role responds 502 `API proxy error` (plain text) and the App role responds
500 `App proxy error` (plain text) for HTTP requests — destroying the
socket for upgrade requests — except that an App connection-refused error
destroys the connection without any response; once headers are sent the
connection is abandoned for both roles. -/
theorem c3_error_status_by_role (code : String) (hasRes headersSent isHttp canDestroy : Bool) :
    (hasRes = true → headersSent = false →
      apiProxyError hasRes headersSent
        = (ErrOutcome.respond 502 "text/plain" "API proxy error",
           [(LogLevel.error, "[PROXY] API proxy error:")]))
    ∧ (headersSent = true → (apiProxyError hasRes headersSent).1 = ErrOutcome.abandon)
    ∧ (code ≠ "ECONNREFUSED" → hasRes = true → headersSent = false → isHttp = true →
        (appProxyError code hasRes headersSent isHttp canDestroy).1
          = ErrOutcome.respond 500 "text/plain" "App proxy error")
    ∧ (code ≠ "ECONNREFUSED" → hasRes = true → headersSent = false → isHttp = false →
        (appProxyError code hasRes headersSent isHttp canDestroy).1 = ErrOutcome.destroySocket)
    ∧ (code = "ECONNREFUSED" → canDestroy = true →
        (appProxyError code hasRes headersSent isHttp canDestroy).1 = ErrOutcome.destroySocket)
    ∧ (code ≠ "ECONNREFUSED" → headersSent = true →
        (appProxyError code hasRes headersSent isHttp canDestroy).1 = ErrOutcome.abandon) := by
  refine ⟨?_, ?_, ?_, ?_, ?_, ?_⟩
  · intro h1 h2
    subst h1; subst h2
    rfl
  · intro h2
    subst h2
    cases hasRes <;> rfl
  · intro hcode h1 h2 h3
    subst h1; subst h2; subst h3
    unfold appProxyError
    rw [if_neg hcode]
    rfl
  · intro hcode h1 h2 h3
    subst h1; subst h2; subst h3
    unfold appProxyError
    rw [if_neg hcode]
    rfl
  · intro hcode hcd
    subst hcode; subst hcd
    rfl
  · intro hcode h2
    subst h2
    unfold appProxyError
    rw [if_neg hcode]
    cases hasRes <;> rfl

/-- Concrete instantiations of the hypotheses of
`c3_error_status_by_role`. -/
theorem c3_error_status_by_role_witness :
    apiProxyError true false
      = (ErrOutcome.respond 502 "text/plain" "API proxy error",
         [(LogLevel.error, "[PROXY] API proxy error:")])
    ∧ (appProxyError "ECONNRESET" true false true true).1
      = ErrOutcome.respond 500 "text/plain" "App proxy error"
    ∧ (appProxyError "ECONNREFUSED" true false true true).1 = ErrOutcome.destroySocket
    ∧ (apiProxyError true true).1 = ErrOutcome.abandon :=
  ⟨(c3_error_status_by_role "ECONNRESET" true false true true).1 rfl rfl,
   (c3_error_status_by_role "ECONNRESET" true false true true).2.2.1 (by decide) rfl rfl rfl,
   (c3_error_status_by_role "ECONNREFUSED" true false true true).2.2.2.2.1 rfl rfl,
   (c3_error_status_by_role "ECONNRESET" true true true true).2.1 rfl⟩

/-- C4 counterexample: the claim says a connection-refused App-role error
logs a warning and does not emit an error-level log; but the handler's
first statement logs at error level unconditionally, so on ECONNREFUSED
both an error-level line and a warning are emitted. -/
theorem c4_counterexample :
    (LogLevel.error, "[PROXY] App proxy error:")
      ∈ (appProxyError "ECONNREFUSED" true false true true).2
    ∧ (LogLevel.warn, "[PROXY] App not ready yet, ignoring...")
      ∈ (appProxyError "ECONNREFUSED" true false true true).2 := by
  constructor
  · show (LogLevel.error, "[PROXY] App proxy error:")
      ∈ [(LogLevel.error, "[PROXY] App proxy error:"),
         (LogLevel.warn, "[PROXY] App not ready yet, ignoring...")]
    exact List.mem_cons_self _ _
  · show (LogLevel.warn, "[PROXY] App not ready yet, ignoring...")
      ∈ [(LogLevel.error, "[PROXY] App proxy error:"),
         (LogLevel.warn, "[PROXY] App not ready yet, ignoring...")]
    exact List.mem_cons.mpr (Or.inr (List.mem_cons_self _ _))

/-- C4 as amended: on an App-role connection-refused error the handler
logs a warning (after the error-level line it emits for every App proxy
error), destroys the half-open connection, and the caller receives no
502 (indeed no response at all). -/
theorem c4_connection_refused_drops_connection (hasRes headersSent isHttp : Bool) :
    appProxyError "ECONNREFUSED" hasRes headersSent isHttp true
      = (ErrOutcome.destroySocket,
         [(LogLevel.error, "[PROXY] App proxy error:"),
          (LogLevel.warn, "[PROXY] App not ready yet, ignoring...")]) := rfl

/-- C5 counterexample: the claim says `start()` on an already-started
server does not open a second listener; but starting a proxy that is
already listening creates a fresh `https` server and invokes `listen`
again. -/
theorem c5_counterexample :
    (startStep { server := none, listening := false } 0).1.listening = true
    ∧ (startStep (startStep { server := none, listening := false } 0).1 1).2.listenCalled = true
    ∧ (startStep (startStep { server := none, listening := false } 0).1 1).2.newServerCreated
        = true :=
  ⟨rfl, rfl, rfl⟩

/-- C5 as amended: `stop()` is idempotent and safe — on a never-started
proxy it is a no-op, and a repeated `stop()` leaves the state unchanged
without throwing — but `start()` has no idempotence guard: every call,
including on an already-started server, creates new proxies and a new
server and invokes `listen` again, replacing the `server` reference. -/
theorem c5_stop_idempotent_start_unguarded (s : LifecycleState) (freshId : Nat) :
    stopStep { server := none, listening := false }
      = ({ server := none, listening := false }, false)
    ∧ (stopStep (stopStep s).1).1 = (stopStep s).1
    ∧ (startStep s freshId).2
      = { certsLoaded := true, newProxiesCreated := true,
          newServerCreated := true, listenCalled := true }
    ∧ (startStep s freshId).1 = { server := some freshId, listening := true } := by
  refine ⟨rfl, ?_, rfl, rfl⟩
  rcases s with ⟨server, listening⟩
  cases server <;> rfl


/-- C9: Certificate loading computes the two paths
`{certsPath}/{devDomain}-key.pem` and `{certsPath}/{devDomain}.pem`,
checks existence of the key file first and then the certificate file
before reading either, and fails with an error naming the exact missing
path when either file is absent. -/
theorem c9_certificate_loading (fs : FileSys) (certsPath devDomain : String) :
    (fs.pathExists (pathJoin certsPath (devDomain ++ "-key.pem")) = false →
      loadSSLCertificates fs certsPath devDomain
        = (.error ("SSL key not found at: " ++ pathJoin certsPath (devDomain ++ "-key.pem")),
           [CertAccess.existsCheck (pathJoin certsPath (devDomain ++ "-key.pem"))]))
    ∧ (fs.pathExists (pathJoin certsPath (devDomain ++ "-key.pem")) = true →
        fs.pathExists (pathJoin certsPath (devDomain ++ ".pem")) = false →
        loadSSLCertificates fs certsPath devDomain
          = (.error ("SSL certificate not found at: "
                ++ pathJoin certsPath (devDomain ++ ".pem")),
             [CertAccess.existsCheck (pathJoin certsPath (devDomain ++ "-key.pem")),
              CertAccess.existsCheck (pathJoin certsPath (devDomain ++ ".pem"))]))
    ∧ (fs.pathExists (pathJoin certsPath (devDomain ++ "-key.pem")) = true →
        fs.pathExists (pathJoin certsPath (devDomain ++ ".pem")) = true →
        loadSSLCertificates fs certsPath devDomain
          = (.ok (fs.readFile (pathJoin certsPath (devDomain ++ "-key.pem")),
                  fs.readFile (pathJoin certsPath (devDomain ++ ".pem"))),
             [CertAccess.existsCheck (pathJoin certsPath (devDomain ++ "-key.pem")),
              CertAccess.existsCheck (pathJoin certsPath (devDomain ++ ".pem")),
              CertAccess.fileRead (pathJoin certsPath (devDomain ++ "-key.pem")),
              CertAccess.fileRead (pathJoin certsPath (devDomain ++ ".pem"))]))
    ∧ pathJoin certsPath (devDomain ++ "-key.pem")
        = certsPath ++ "/" ++ devDomain ++ "-key.pem"
    ∧ pathJoin certsPath (devDomain ++ ".pem")
        = certsPath ++ "/" ++ devDomain ++ ".pem" := by
  refine ⟨?_, ?_, ?_, ?_, ?_⟩
  · intro h1
    unfold loadSSLCertificates
    simp [h1]
  · intro h1 h2
    unfold loadSSLCertificates
    simp [h1, h2]
  · intro h1 h2
    unfold loadSSLCertificates
    simp [h1, h2]
  · simp [pathJoin, String.append_assoc]
  · simp [pathJoin, String.append_assoc]

/-- Concrete instantiations of the hypotheses of
`c9_certificate_loading`: a filesystem holding only the certificate file
makes loading fail naming the exact key path; one holding only the key
file fails naming the exact certificate path. -/
theorem c9_certificate_loading_witness :
    loadSSLCertificates
      { pathExists := fun p => p == "/certs/dev.example.com.pem", readFile := fun _ => "" }
      "/certs" "dev.example.com"
      = (.error "SSL key not found at: /certs/dev.example.com-key.pem",
         [CertAccess.existsCheck "/certs/dev.example.com-key.pem"])
    ∧ loadSSLCertificates
      { pathExists := fun p => p == "/certs/dev.example.com-key.pem", readFile := fun _ => "" }
      "/certs" "dev.example.com"
      = (.error "SSL certificate not found at: /certs/dev.example.com.pem",
         [CertAccess.existsCheck "/certs/dev.example.com-key.pem",
          CertAccess.existsCheck "/certs/dev.example.com.pem"]) :=
  ⟨(c9_certificate_loading
      { pathExists := fun p => p == "/certs/dev.example.com.pem", readFile := fun _ => "" }
      "/certs" "dev.example.com").1 (by decide),
   (c9_certificate_loading
      { pathExists := fun p => p == "/certs/dev.example.com-key.pem", readFile := fun _ => "" }
      "/certs" "dev.example.com").2.1 (by decide) (by decide)⟩

end DevProxy
